import Mathlib

/-
Verification of the food-analyzer gateway (src/app.py).

The Flask route handlers are embedded shallowly:
  * JSON payloads are an inductive type with Python truthiness;
  * the external generation capability (model.generate_content) is a
    function from the query to either a raised error message or a
    GenResponse carrying parts, text and prompt_feedback;
  * each route returns its HTTP response together with the list of
    diagnostic lines it printed (server-side log), in order.
-/

namespace FoodAnalyzer

/-- JSON values as decoded by request.get_json. Numbers are modelled as
integers (the claims only depend on truthiness of 0). -/
inductive Json where
  | null : Json
  | bool : Bool → Json
  | num : Int → Json
  | str : String → Json
  | arr : List Json → Json
  | obj : List (String × Json) → Json

/-- Python truthiness of a decoded JSON value. -/
def Json.truthy : Json → Bool
  | .null => false
  | .bool b => b
  | .num n => n != 0
  | .str s => !(s == "")
  | .arr xs => !xs.isEmpty
  | .obj kvs => !kvs.isEmpty

/-- Python dict.get on a decoded object: none models an AttributeError
(the receiver is not a dict); some v is the looked-up value, where the
inner none is the Python None returned for a missing key. Later keys
shadow earlier ones, as in Python dict construction. -/
def Json.pyGet : Json → String → Option (Option Json)
  | .obj kvs, k => some ((kvs.reverse.find? (fun kv => kv.1 == k)).map (fun kv => kv.2))
  | _, _ => none

/-- A provider response: content parts, the aggregated text, and the
prompt_feedback metadata attached on blocking. -/
structure GenResponse where
  parts : List String
  text : String
  prompt_feedback : String

/-- The external generation capability: for a query it either raises
(an error message) or returns a response. -/
def GenCapability : Type := String → Except String GenResponse

/-- request.get_json(silent := true): none models an unparseable or
missing body; a body parsing to JSON null also yields Python None. -/
def get_json (body : Option Json) : Option Json :=
  match body with
  | none => none
  | some .null => none
  | some j => some j

/-- Python truthiness of a value that may be None. -/
def pyTruthy : Option Json → Bool
  | none => false
  | some j => j.truthy

/-- Python str.strip with the default whitespace set, modelled over the
character list so that it is kernel-computable. -/
def pyStrip (s : String) : String :=
  String.mk (((s.data.dropWhile Char.isWhitespace).reverse.dropWhile Char.isWhitespace).reverse)

/-- The validation condition on line 129 of src/app.py:
not query or not isinstance(query, str) or not query.strip(). -/
def queryMissing (query : Option Json) : Bool :=
  !pyTruthy query ||
  !(match query with
    | some (.str _) => true
    | _ => false) ||
  (match query with
    | some (.str s) => pyStrip s == ""
    | _ => false)

/-- The string payload handed to execute_food_analyzer once validation
passed (validation guarantees the value is a string). -/
def queryString : Option Json → String
  | some (.str s) => s
  | _ => ""

/-- execute_food_analyzer (src/app.py lines 48-90), with the network
call factored out as the capability argument. Returns the raised error
or the returned text, paired with the printed log lines. -/
def execute_food_analyzer (model : Bool) (generate_content : GenCapability)
    (query : String) : Except String String × List String :=
  if !model then
    (.error ("AI model failed to initialize due to missing or invalid API key."), [])
  else
    match generate_content query with
    | .error e => (.error e, [])
    | .ok response =>
      if response.parts.isEmpty then
        (.error ("The response was blocked by the API. Feedback: " ++ response.prompt_feedback),
         ["Response was blocked by API. Feedback: " ++ response.prompt_feedback])
      else
        (.ok response.text, [])

/-- The hardcoded model identifier (src/app.py line 20). -/
def MODEL_TO_USE : String := "gemini-2.5-flash"

/-- The JSON body and HTTP status produced by the /api/execute route:
optional success flag, optional result text, optional error string. -/
structure ExecResponse where
  status : Nat
  success : Option Bool
  result : Option String
  error : Option String
deriving DecidableEq

/-- jsonify of a bare error envelope with a status code. -/
def jsonify_error (status : Nat) (msg : String) : ExecResponse :=
  { status := status, success := none, result := none, error := some msg }

/-- Outcome of the route: a JSON response, or an unhandled Python
exception escaping the handler (data.get on a non-dict). -/
inductive RouteResult where
  | resp : ExecResponse → RouteResult
  | crash : String → RouteResult
deriving DecidableEq

/-- The /api/execute route (src/app.py lines 116-144), returning the
response together with the printed log lines in order. -/
def execute (model : Bool) (generate_content : GenCapability)
    (body : Option Json) : RouteResult × List String :=
  if !model then
    (.resp (jsonify_error 503 ("AI service not initialized. Check API key configuration.")), [])
  else
    match get_json body with
    | none => (.resp (jsonify_error 400 ("Invalid or missing JSON payload.")), [])
    | some data =>
      if !data.truthy then
        (.resp (jsonify_error 400 ("Invalid or missing JSON payload.")), [])
      else
        match data.pyGet "query" with
        | none => (.crash ("AttributeError: object has no attribute get"), [])
        | some query =>
          if queryMissing query then
            (.resp (jsonify_error 400 ("Missing or empty \"query\" field in the request.")), [])
          else
            match execute_food_analyzer model generate_content (queryString query) with
            | (.ok result, log) =>
              (.resp { status := 200, success := some true, result := some result, error := none },
               log)
            | (.error e, log) =>
              (.resp (jsonify_error 500 ("An unexpected internal server error occurred: " ++ e)),
               log ++ ["Internal Server Error: " ++ e])

/-- The body and HTTP status produced by the /check route. -/
structure CheckResponse where
  httpStatus : Nat
  status : String
  message : String
  model : String
deriving DecidableEq

/-- The /check route (src/app.py lines 94-112). -/
def check (model : Bool) : CheckResponse :=
  let status_code : Nat := if !model then 503 else 200
  let message : String :=
    if !model then "backend is running, but AI model failed to initialize."
    else "backend is running"
  { httpStatus := status_code
  , status := if status_code == 200 then "ok" else "error"
  , message := message
  , model := MODEL_TO_USE }

/-- A stub capability used to instantiate universally quantified
theorems at concrete inputs. -/
def genStub : GenCapability := fun _ => .error ("stub failure")

/-- A capability that returns a healthy response with one content part. -/
def genOk : GenCapability :=
  fun _ => .ok { parts := ["part0"], text := "🥗 Summary report", prompt_feedback := "" }

/-- A capability whose response has no content parts (provider-side
blocking) with feedback metadata SAFETY. -/
def genBlocked : GenCapability :=
  fun _ => .ok { parts := [], text := "", prompt_feedback := "SAFETY" }

/-- A capability that raises, with a message textually equal to the one
the blocked-response branch raises for feedback SAFETY. -/
def genRaised : GenCapability :=
  fun _ => .error ("The response was blocked by the API. Feedback: SAFETY")

/-- Whether a route outcome is an HTTP 500 response. -/
def is500 : RouteResult → Bool
  | .resp h => h.status == 500
  | .crash _ => false

/-- Validation passes for a string whose strip is non-empty. -/
theorem queryMissing_str (s : String) (hs : pyStrip s ≠ "") :
    queryMissing (some (.str s)) = false := by
  have hne : s ≠ "" := by
    intro h
    subst h
    exact hs (by decide)
  simp [queryMissing, pyTruthy, Json.truthy, beq_iff_eq, hne, hs]

/-- Every outcome of the execute route is one of: the 503 envelope, one
of the two 400 envelopes, a crash on a truthy non-object payload, a 200
success envelope, or a 500 envelope whose log ends with the internal
server error line. -/
theorem execute_shape (model : Bool) (gc : GenCapability) (body : Option Json) :
    execute model gc body =
      (.resp (jsonify_error 503 ("AI service not initialized. Check API key configuration.")), []) ∨
    execute model gc body =
      (.resp (jsonify_error 400 ("Invalid or missing JSON payload.")), []) ∨
    execute model gc body =
      (.resp (jsonify_error 400 ("Missing or empty \"query\" field in the request.")), []) ∨
    (∃ m, execute model gc body = (.crash m, [])) ∨
    (∃ t, execute model gc body =
      (.resp { status := 200, success := some true, result := some t, error := none }, [])) ∨
    (∃ e pre, execute model gc body =
      (.resp (jsonify_error 500 ("An unexpected internal server error occurred: " ++ e)),
       pre ++ ["Internal Server Error: " ++ e])) := by
  cases model with
  | false => left; rfl
  | true =>
    cases body with
    | none => right; left; rfl
    | some j =>
      cases j with
      | null => right; left; rfl
      | bool b =>
        cases b with
        | false => right; left; rfl
        | true =>
          right; right; right; left
          exact ⟨"AttributeError: object has no attribute get", rfl⟩
      | num n =>
        by_cases hn : n = 0
        · subst hn; right; left; rfl
        · right; right; right; left
          refine ⟨"AttributeError: object has no attribute get", ?_⟩
          simp [execute, get_json, Json.truthy, Json.pyGet, beq_iff_eq, hn]
      | str s =>
        by_cases hs : s = ""
        · subst hs; right; left; rfl
        · right; right; right; left
          refine ⟨"AttributeError: object has no attribute get", ?_⟩
          simp [execute, get_json, Json.truthy, Json.pyGet, beq_iff_eq, hs]
      | arr xs =>
        cases xs with
        | nil => right; left; rfl
        | cons a l =>
          right; right; right; left
          exact ⟨"AttributeError: object has no attribute get", rfl⟩
      | obj kvs =>
        cases kvs with
        | nil => right; left; rfl
        | cons kv rest =>
          rcases hq : Json.pyGet (.obj (kv :: rest)) "query" with _ | q
          · simp [Json.pyGet] at hq
          · by_cases hmiss : queryMissing q = true
            · right; right; left
              simp [execute, get_json, Json.truthy, hq, hmiss]
            · rcases hg : gc (queryString q) with e | r
              · right; right; right; right; right
                refine ⟨e, [], ?_⟩
                simp [execute, get_json, Json.truthy, hq, hmiss, execute_food_analyzer, hg]
              · cases hp : r.parts with
                | nil =>
                  right; right; right; right; right
                  refine ⟨"The response was blocked by the API. Feedback: " ++ r.prompt_feedback,
                          ["Response was blocked by API. Feedback: " ++ r.prompt_feedback], ?_⟩
                  simp [execute, get_json, Json.truthy, hq, hmiss, execute_food_analyzer, hg, hp]
                | cons a l =>
                  right; right; right; right; left
                  refine ⟨r.text, ?_⟩
                  simp [execute, get_json, Json.truthy, hq, hmiss, execute_food_analyzer, hg, hp]

/-- C1: for a request whose body is a JSON object whose query field is a
string that is non-empty after stripping, with the capability
initialized, if the generation call returns a response with non-empty
content parts then the execute route returns HTTP 200 with success true
and result exactly the text of the response, unchanged, and logs
nothing. -/
theorem C1_success_verbatim (generate_content : GenCapability)
    (j : Json) (s : String) (r : GenResponse)
    (ht : j.truthy = true)
    (hq : j.pyGet "query" = some (some (.str s)))
    (hs : pyStrip s ≠ "")
    (hgen : generate_content s = .ok r)
    (hparts : r.parts ≠ []) :
    execute true generate_content (some j) =
      (.resp { status := 200, success := some true, result := some r.text, error := none }, []) := by
  have hmiss := queryMissing_str s hs
  have hptf : r.parts.isEmpty = false := by
    cases hp : r.parts with
    | nil => exact absurd hp hparts
    | cons a l => rfl
  cases j with
  | null => exact absurd hq (by simp [Json.pyGet])
  | bool b => exact absurd hq (by simp [Json.pyGet])
  | num n => exact absurd hq (by simp [Json.pyGet])
  | str t => exact absurd hq (by simp [Json.pyGet])
  | arr xs => exact absurd hq (by simp [Json.pyGet])
  | obj kvs =>
    simp [execute, get_json, ht, hq, hmiss, queryString, execute_food_analyzer, hgen, hptf]

/-- C1 witness: a concrete healthy request observes the 200 envelope
with the generated text passed through verbatim. -/
theorem C1_success_verbatim_witness :
    pyStrip ("Amul Butter") ≠ "" ∧
    execute true genOk (some (.obj [("query", .str ("Amul Butter"))])) =
      (.resp { status := 200, success := some true,
               result := some ("🥗 Summary report"), error := none }, []) :=
  ⟨by decide,
   C1_success_verbatim genOk (.obj [("query", .str ("Amul Butter"))]) ("Amul Butter")
     { parts := ["part0"], text := "🥗 Summary report", prompt_feedback := "" }
     rfl rfl (by decide) rfl (by decide)⟩

/-- C2: with the capability uninitialized, every call to the execute
route returns HTTP 503 with exactly the configured message, independent
of the capability and of the body (so no external call is attempted),
and the check route reports HTTP 503 with status error and its degraded
message. -/
theorem C2_uninitialized_503 (generate_content : GenCapability) (body : Option Json) :
    execute false generate_content body =
      (.resp (jsonify_error 503 ("AI service not initialized. Check API key configuration.")), []) ∧
    (check false).httpStatus = 503 ∧
    (check false).status = "error" ∧
    (check false).message = "backend is running, but AI model failed to initialize." :=
  ⟨rfl, rfl, rfl, rfl⟩

/-- C3: with the capability initialized, for a truthy JSON object body
whose query lookup fails validation (missing, empty, whitespace-only or
not a string), the execute route returns HTTP 400 with the
missing-query message, independent of the capability (no external
call). -/
theorem C3_bad_query_400 (generate_content : GenCapability) (j : Json) (q : Option Json)
    (ht : j.truthy = true)
    (hq : j.pyGet "query" = some q)
    (hmiss : queryMissing q = true) :
    execute true generate_content (some j) =
      (.resp (jsonify_error 400 ("Missing or empty \"query\" field in the request.")), []) := by
  cases j with
  | null => exact absurd hq (by simp [Json.pyGet])
  | bool b => exact absurd hq (by simp [Json.pyGet])
  | num n => exact absurd hq (by simp [Json.pyGet])
  | str t => exact absurd hq (by simp [Json.pyGet])
  | arr xs => exact absurd hq (by simp [Json.pyGet])
  | obj kvs => simp [execute, get_json, ht, hq, hmiss]

/-- C3 witness: a whitespace-only query observes the 400 envelope. -/
theorem C3_bad_query_400_witness :
    Json.truthy (.obj [("query", .str (" "))]) = true ∧
    Json.pyGet (.obj [("query", .str (" "))]) "query" = some (some (.str (" "))) ∧
    queryMissing (some (.str (" "))) = true ∧
    execute true genStub (some (.obj [("query", .str (" "))])) =
      (.resp (jsonify_error 400 ("Missing or empty \"query\" field in the request.")), []) :=
  ⟨rfl, rfl, by decide,
   C3_bad_query_400 genStub (.obj [("query", .str (" "))]) (some (.str (" ")))
     rfl rfl (by decide)⟩

/-- C4 counterexample: a POST of the empty JSON object with the
capability initialized returns HTTP 400 with the invalid-payload
message, which differs from the missing-query message the claim
states. -/
theorem C4_empty_object_cex :
    execute true genStub (some (.obj [])) =
      (.resp (jsonify_error 400 ("Invalid or missing JSON payload.")), []) ∧
    jsonify_error 400 ("Invalid or missing JSON payload.") ≠
      jsonify_error 400 ("Missing or empty \"query\" field in the request.") :=
  ⟨rfl, by decide⟩

/-- C4 amended: a POST of the empty JSON object with the capability
initialized returns HTTP 400 with body error set to the message
Invalid or missing JSON payload. (the empty object is falsy, so the
payload-presence check fires before the query-field check). -/
theorem C4_empty_object_amended (generate_content : GenCapability) :
    execute true generate_content (some (.obj [])) =
      (.resp (jsonify_error 400 ("Invalid or missing JSON payload.")), []) := rfl

/-- C5 counterexample: a blocked response (no content parts, feedback
SAFETY) yields exactly the same HTTP response as a capability that
raises the corresponding message: the generic 500 envelope. The route
has no status distinct from a generic internal error for the blocked
case. -/
theorem C5_no_distinct_status_cex :
    (execute true genBlocked (some (.obj [("query", .str ("butter"))]))).1 =
      (execute true genRaised (some (.obj [("query", .str ("butter"))]))).1 ∧
    (execute true genBlocked (some (.obj [("query", .str ("butter"))]))).1 =
      .resp (jsonify_error 500
        ("An unexpected internal server error occurred: The response was blocked by the API. Feedback: SAFETY")) :=
  ⟨rfl, rfl⟩

/-- C5 amended: when the call returns a response with no content parts,
the execute route returns the generic HTTP 500 envelope, distinct from
Success (500 vs 200), whose message includes the provider feedback
metadata, and logs the block; the response carries no status distinct
from a generic internal error. -/
theorem C5_blocked_maps_to_500 (generate_content : GenCapability)
    (j : Json) (s : String) (r : GenResponse)
    (ht : j.truthy = true)
    (hq : j.pyGet "query" = some (some (.str s)))
    (hs : pyStrip s ≠ "")
    (hgen : generate_content s = .ok r)
    (hparts : r.parts = []) :
    execute true generate_content (some j) =
      (.resp (jsonify_error 500 ("An unexpected internal server error occurred: " ++
          ("The response was blocked by the API. Feedback: " ++ r.prompt_feedback))),
       ["Response was blocked by API. Feedback: " ++ r.prompt_feedback,
        "Internal Server Error: " ++ ("The response was blocked by the API. Feedback: " ++ r.prompt_feedback)]) ∧
    (500 : Nat) ≠ 200 := by
  have hmiss := queryMissing_str s hs
  refine ⟨?_, by decide⟩
  cases j with
  | null => exact absurd hq (by simp [Json.pyGet])
  | bool b => exact absurd hq (by simp [Json.pyGet])
  | num n => exact absurd hq (by simp [Json.pyGet])
  | str t => exact absurd hq (by simp [Json.pyGet])
  | arr xs => exact absurd hq (by simp [Json.pyGet])
  | obj kvs =>
    simp [execute, get_json, ht, hq, hmiss, queryString, execute_food_analyzer, hgen, hparts]

/-- C5 amended witness: the concrete blocked capability observes the 500
envelope with the feedback in the message and both log lines. -/
theorem C5_blocked_maps_to_500_witness :
    pyStrip ("butter") ≠ "" ∧
    execute true genBlocked (some (.obj [("query", .str ("butter"))])) =
      (.resp (jsonify_error 500 ("An unexpected internal server error occurred: " ++
          ("The response was blocked by the API. Feedback: " ++ "SAFETY"))),
       ["Response was blocked by API. Feedback: " ++ "SAFETY",
        "Internal Server Error: " ++ ("The response was blocked by the API. Feedback: " ++ "SAFETY")]) ∧
    (500 : Nat) ≠ 200 :=
  ⟨by decide,
   (C5_blocked_maps_to_500 genBlocked (.obj [("query", .str ("butter"))]) ("butter")
     { parts := [], text := "", prompt_feedback := "SAFETY" }
     rfl rfl (by decide) rfl rfl).1,
   (C5_blocked_maps_to_500 genBlocked (.obj [("query", .str ("butter"))]) ("butter")
     { parts := [], text := "", prompt_feedback := "SAFETY" }
     rfl rfl (by decide) rfl rfl).2⟩

/-- C6: with the capability initialized and a valid query, if the
generation call raises with message e then the execute route catches it
and returns the HTTP 500 envelope whose message appends e to a short
description, after logging the internal server error line; the failure
never escapes as a crash, and the handler is a pure function of its
inputs, so subsequent requests are unaffected. -/
theorem C6_internal_error_500 (generate_content : GenCapability)
    (j : Json) (s e : String)
    (ht : j.truthy = true)
    (hq : j.pyGet "query" = some (some (.str s)))
    (hs : pyStrip s ≠ "")
    (hgen : generate_content s = .error e) :
    execute true generate_content (some j) =
      (.resp (jsonify_error 500 ("An unexpected internal server error occurred: " ++ e)),
       ["Internal Server Error: " ++ e]) := by
  have hmiss := queryMissing_str s hs
  cases j with
  | null => exact absurd hq (by simp [Json.pyGet])
  | bool b => exact absurd hq (by simp [Json.pyGet])
  | num n => exact absurd hq (by simp [Json.pyGet])
  | str t => exact absurd hq (by simp [Json.pyGet])
  | arr xs => exact absurd hq (by simp [Json.pyGet])
  | obj kvs =>
    simp [execute, get_json, ht, hq, hmiss, queryString, execute_food_analyzer, hgen]

/-- C6 witness: the stub capability that raises observes the 500
envelope carrying its message and the log line. -/
theorem C6_internal_error_500_witness :
    pyStrip ("butter") ≠ "" ∧
    execute true genStub (some (.obj [("query", .str ("butter"))])) =
      (.resp (jsonify_error 500 ("An unexpected internal server error occurred: " ++ "stub failure")),
       ["Internal Server Error: " ++ "stub failure"]) :=
  ⟨by decide,
   C6_internal_error_500 genStub (.obj [("query", .str ("butter"))]) ("butter") ("stub failure")
     rfl rfl (by decide) rfl⟩

/-- C7: the check route is a function of the initialization flag alone
(so deterministic, no external call): initialized, it returns HTTP 200
with status ok, message backend is running and the configured model
identifier; uninitialized, HTTP 503 with status error, the degraded
message, and the same model identifier. -/
theorem C7_check_route :
    check true = { httpStatus := 200, status := "ok",
                   message := "backend is running", model := MODEL_TO_USE } ∧
    check false = { httpStatus := 503, status := "error",
                    message := "backend is running, but AI model failed to initialize.",
                    model := MODEL_TO_USE } :=
  ⟨rfl, rfl⟩

/-- C8: every JSON response the execute route produces populates
exactly one of the result text and the error string: an HTTP 200
response carries success true, a result and no error, and every
non-200 response carries an error string and no result. -/
theorem C8_exactly_one_populated (model : Bool) (generate_content : GenCapability)
    (body : Option Json) (h : ExecResponse)
    (hr : (execute model generate_content body).1 = .resp h) :
    (h.status = 200 → h.success = some true ∧ h.result ≠ none ∧ h.error = none) ∧
    (h.status ≠ 200 → h.result = none ∧ h.error ≠ none) := by
  rcases execute_shape model generate_content body with
    he | he | he | ⟨m, he⟩ | ⟨t, he⟩ | ⟨e, pre, he⟩ <;>
      rw [he] at hr <;> simp only [] at hr <;> cases hr <;>
        constructor <;> intro hst <;> simp_all [jsonify_error]

/-- C8 witness: the 503 envelope of an uninitialized call satisfies the
exactly-one invariant. -/
theorem C8_exactly_one_populated_witness :
    ((jsonify_error 503 ("AI service not initialized. Check API key configuration.")).status = 200 →
      (jsonify_error 503 ("AI service not initialized. Check API key configuration.")).success = some true ∧
      (jsonify_error 503 ("AI service not initialized. Check API key configuration.")).result ≠ none ∧
      (jsonify_error 503 ("AI service not initialized. Check API key configuration.")).error = none) ∧
    ((jsonify_error 503 ("AI service not initialized. Check API key configuration.")).status ≠ 200 →
      (jsonify_error 503 ("AI service not initialized. Check API key configuration.")).result = none ∧
      (jsonify_error 503 ("AI service not initialized. Check API key configuration.")).error ≠ none) :=
  C8_exactly_one_populated false genStub none
    (jsonify_error 503 ("AI service not initialized. Check API key configuration.")) rfl

/-- C9 counterexample: the uninitialized 503 response is a failure path
that returns with an empty server-side log, so not every failure path
writes a diagnostic log line. -/
theorem C9_unlogged_failure_cex :
    execute false genStub none =
      (.resp (jsonify_error 503 ("AI service not initialized. Check API key configuration.")), []) ∧
    (503 : Nat) ≠ 200 :=
  ⟨rfl, by decide⟩

/-- C9 amended: the execute route logs if and only if it answers the
generic HTTP 500 envelope (the caught exception paths, including
upstream blocking); the 503 and 400 validation failures and the 200
successes return with no log output. -/
theorem C9_log_iff_500 (model : Bool) (generate_content : GenCapability)
    (body : Option Json) :
    (execute model generate_content body).2.isEmpty =
      !(is500 (execute model generate_content body).1) := by
  rcases execute_shape model generate_content body with
    he | he | he | ⟨m, he⟩ | ⟨t, he⟩ | ⟨e, pre, he⟩ <;>
      rw [he] <;> simp [is500, jsonify_error]

/-- C10: with the capability initialized, every syntactically valid but
falsy JSON body (empty object, empty array, null, false, 0, empty
string) yields HTTP 400 with the invalid-payload message, exactly the
response for an unparseable body, without reaching the query-field
check. -/
theorem C10_falsy_payload_400 (generate_content : GenCapability) (j : Json)
    (hf : j.truthy = false) :
    execute true generate_content (some j) =
      (.resp (jsonify_error 400 ("Invalid or missing JSON payload.")), []) ∧
    execute true generate_content none =
      (.resp (jsonify_error 400 ("Invalid or missing JSON payload.")), []) := by
  refine ⟨?_, rfl⟩
  cases j with
  | null => rfl
  | bool b => simp [execute, get_json, hf]
  | num n => simp [execute, get_json, hf]
  | str s => simp [execute, get_json, hf]
  | arr xs => simp [execute, get_json, hf]
  | obj kvs => simp [execute, get_json, hf]

/-- C10 witness: the empty object observes the invalid-payload 400
envelope, identical to the response for an unparseable body. -/
theorem C10_falsy_payload_400_witness :
    Json.truthy (.obj []) = false ∧
    (execute true genStub (some (.obj [])) =
      (.resp (jsonify_error 400 ("Invalid or missing JSON payload.")), []) ∧
     execute true genStub none =
      (.resp (jsonify_error 400 ("Invalid or missing JSON payload.")), [])) :=
  ⟨rfl, C10_falsy_payload_400 genStub (.obj []) rfl⟩

end FoodAnalyzer

